import Mathlib

/-!
Verification development for the volatility client action
(`client/client_actions/grr_volatility.py`).

The Python module is shallowly embedded below:

* `addValue` embeds `ProtobufRenderer.AddValue` (the value coercion);
* `initSection`, `tableRow`, `formatOp`, `runOps` embed the section
  state machine of `ProtobufRenderer`;
* `runPlugin`, `runTrace`, `runReplies` embed the plugin loop of
  `VolatilityAction.Run`;
* `buildSession`, `getOrCreate`, `volRun` embed the session recovery
  and attribute application of `VolatilityAction.Run`; the backing
  store `Store` stands for `utils.FastStore`, whose code is not part
  of this repository snapshot and is therefore modelled from the
  specification (bounded LRU keyed store).

Python exceptions that the source anticipates (it catches
`AttributeError` and `ValueError` around `__int__`, `__unicode__`,
`__str__` and `int(...)`) are modelled by `Option`: `none` means the
call raised one of the caught exception types.  Python object identity
is modelled by the `id` field of `Session`.  `utils.SmartUnicode` and
`utils.SmartStr` are identities on our `String` model of Python
strings.
-/

set_option maxRecDepth 4000

namespace GrrVolatility

/-- One wire value of the `VolatilityResponse` protobuf (`jobs_pb2`).
`none` models an unset optional protobuf field; reading an unset
integer field yields the proto2 default `0` (see `protoIntRead`). -/
structure WireValue where
  type : Option String := none
  name : Option String := none
  offset : Option Int := none
  vm : Option String := none
  value : Option Int := none
  svalue : Option String := none
  reason : Option String := none
deriving DecidableEq

/-- Reading a proto2 optional integer field: unset reads as 0. -/
def protoIntRead (f : Option Int) : Int := f.getD 0

/-- The capabilities of a volatility `obj.BaseObject` that
`AddValue` probes.  `intConv` is the outcome of `value.__int__()`
(`none` when it raises `AttributeError` or `ValueError`),
`unicodeConv` of `value.__unicode__()`, `strConv` of
`value.__str__()`. -/
structure BaseObjData where
  objType : String
  objName : String
  objOffset : Int
  objVm : String
  intConv : Option Int
  unicodeConv : Option String
  strConv : Option String
deriving DecidableEq

/-- A Python value reaching `AddValue`.  Constructors follow the
`isinstance` chain of the source: `obj.BaseObject`, `bool`,
`(int, long)`, `basestring`, `obj.NoneObject`, anything else.  In
Python `bool` is a subclass of `int`; the source tests `bool` before
`int`, which the disjoint constructors encode by giving booleans their
own constructor that is dispatched before the integer branch. -/
inductive PyValue where
  | baseObject (d : BaseObjData)
  | pyBool (b : Bool)
  | pyInt (i : Int)
  | pyStr (s : String)
  | noneObject (className reason : String)
  | pyOther (reprStr : String)
deriving DecidableEq

/-- Python `str(bool)`. -/
def pyBoolStr (b : Bool) : String := if b then "True" else "False"

/-- The surrounding-whitespace characters Python `int(str)` strips. -/
def isPySpace (c : Char) : Bool :=
  c = ' ' || c = '\t' || c = '\n' || c = '\r' || c = '\x0b' || c = '\x0c'

/-- Strip leading and trailing whitespace from a character list. -/
def stripChars (l : List Char) : List Char :=
  ((l.dropWhile isPySpace).reverse.dropWhile isPySpace).reverse

/-- Value of a list of ASCII digits. -/
def digitsVal (ds : List Char) : Nat :=
  ds.foldl (fun acc c => acc * 10 + (c.toNat - 48)) 0

/-- Python `int(string)`: strip surrounding whitespace, allow one
optional sign, then base-10 digits; anything else raises `ValueError`
(`none`).  (Non-ASCII unicode digits are out of the model.) -/
def pyIntOfString (s : String) : Option Int :=
  let t := stripChars s.data
  let (sign, digits) :=
    match t with
    | '-' :: ds => ((-1 : Int), ds)
    | '+' :: ds => ((1 : Int), ds)
    | ds => ((1 : Int), ds)
  if digits ≠ [] ∧ digits.all Char.isDigit then
    some (sign * (digitsVal digits : Int))
  else
    none

/-- The `obj.BaseObject` branch of `AddValue` (source lines 103-131).
`response.value` is assigned exactly when `value.__int__()` completes,
so the field equals `d.intConv`.  The textual rendering is
`__unicode__`, falling back to `__str__` when the former raises; when
both raise, `string_value` is never assigned and the subsequent
`if string_value:` raises `UnboundLocalError`, modelled as
`.error ()`. -/
def baseObjectBranch (d : BaseObjData) : Except Unit WireValue :=
  let r : WireValue :=
    { type := some d.objType, name := some d.objName,
      offset := some d.objOffset, vm := some d.objVm,
      value := d.intConv }
  match d.unicodeConv.orElse (fun _ => d.strConv) with
  | none => .error ()
  | some s =>
    if s = "" then .ok r
    else
      match pyIntOfString s with
      | some n => if n ≠ protoIntRead r.value then .ok { r with svalue := some s } else .ok r
      | none => .ok { r with svalue := some s }

/-- `ProtobufRenderer.AddValue` (source lines 100-143) for one value:
the populated wire value, or `.error ()` when the coercion itself
raises (`UnboundLocalError`, see `baseObjectBranch`). -/
def addValue : PyValue → Except Unit WireValue
  | .baseObject d => baseObjectBranch d
  | .pyBool b => .ok { svalue := some (pyBoolStr b) }
  | .pyInt i => .ok { value := some i }
  | .pyStr s => .ok { svalue := some s }
  | .noneObject className reason =>
      .ok { type := some className, reason := some reason }
  | .pyOther reprStr => .ok { svalue := some reprStr }

/-- `ProtobufRenderer.Modes` (source lines 44-46). -/
inductive Modes where
  | TABLE
  | STRING
deriving DecidableEq

/-- One table column header (`section.table.headers` entry). -/
structure TableHeader where
  printName : String
  name : String
  formatHint : String
deriving DecidableEq

/-- One `formatted_values` entry: the raw format string plus the
coerced arguments. -/
structure FormattedValue where
  formatstring : String
  data : List WireValue
deriving DecidableEq

/-- The `table` submessage of a section. -/
structure VolTable where
  headers : List TableHeader := []
  rows : List (List WireValue) := []
deriving DecidableEq

/-- One `sections` entry of a `VolatilityResponse`.  The protobuf
carries both submessages; whichever the renderer writes to is the
populated one. -/
structure Section where
  table : VolTable := {}
  formattedValueList : List FormattedValue := []
deriving DecidableEq

/-- A freshly added, still empty section. -/
def emptySection : Section := {}

/-- The mutable fields of a `ProtobufRenderer`: the accumulated
`response.sections`, the `active_section` (modelled as an index into
`sections`, since the Python reference always points at the most
recently added section), and the current `mode`. -/
structure RState where
  sections : List Section := []
  activeSection : Option Nat := none
  mode : Option Modes := none
deriving DecidableEq

/-- Renderer state right after `ProtobufRenderer.__init__`. -/
def freshRState : RState := {}

/-- `ProtobufRenderer.InitSection` (source lines 53-58): a mode switch
drops the active section; with no active section a new empty one is
appended to the response and becomes active. -/
def initSection (m : Modes) (s : RState) : RState :=
  let s1 := if s.mode ≠ some m then { s with activeSection := none } else s
  match s1.activeSection with
  | none =>
      { sections := s1.sections ++ [emptySection],
        activeSection := some s1.sections.length,
        mode := some m }
  | some _ => { s1 with mode := some m }

/-- Replace the element at index `i` by `f` of it. -/
def modifyIdx (f : Section → Section) : Nat → List Section → List Section
  | _, [] => []
  | 0, a :: as => f a :: as
  | n + 1, a :: as => a :: modifyIdx f n as

/-- Apply `f` to the active section (it is always set when this is
reached, right after `InitSection`). -/
def withActive (s : RState) (f : Section → Section) : RState :=
  match s.activeSection with
  | some i => { s with sections := modifyIdx f i s.sections }
  | none => s

/-- Coerce the arguments one after the other, as the `for` loops in
`format` and `table_row` do: the values coerced before the first
failing one are kept (they were already added to the protobuf when the
exception was raised), the flag records whether a coercion raised. -/
def addValuesPartial : List PyValue → List WireValue × Bool
  | [] => ([], false)
  | v :: vs =>
    match addValue v with
    | .error _ => ([], true)
    | .ok w =>
      let (ws, e) := addValuesPartial vs
      (w :: ws, e)

/-- `ProtobufRenderer.table_row` (source lines 145-152): start or
continue a TABLE section, append one row of coerced values.  The flag
is true when a coercion raised (the exception then propagates out of
the render call). -/
def tableRow (args : List PyValue) (s : RState) : RState × Bool :=
  let s := initSection .TABLE s
  let (ws, err) := addValuesPartial args
  (withActive s (fun sec =>
    { sec with table := { sec.table with rows := sec.table.rows ++ [ws] } }), err)

/-- `ProtobufRenderer.format` (source lines 70-80): start or continue
a STRING section, append one formatted value carrying the raw format
string and the coerced arguments. -/
def formatOp (formatstring : String) (args : List PyValue) (s : RState) : RState × Bool :=
  let s := initSection .STRING s
  let (ws, err) := addValuesPartial args
  (withActive s (fun sec =>
    { sec with formattedValueList :=
        sec.formattedValueList ++ [⟨formatstring, ws⟩] }), err)

/-- `ProtobufRenderer.table_header` (source lines 88-98): start or
continue a TABLE section, append the column headers. -/
def tableHeaderOp (cols : List TableHeader) (s : RState) : RState :=
  let s := initSection .TABLE s
  withActive s (fun sec =>
    { sec with table := { sec.table with headers := sec.table.headers ++ cols } })

/-- `ProtobufRenderer.section` (source lines 82-83). -/
def sectionOp (s : RState) : RState := { s with activeSection := none }

/-- The two renderer calls a plugin issues that the section claims
quantify over: `table_row` (spec `addRow`) and `format` (spec
`writeText`). -/
inductive RenderOp where
  | addRow (vals : List PyValue)
  | writeText (tmpl : String) (args : List PyValue)
deriving DecidableEq

/-- Execute one renderer call. -/
def stepOp : RenderOp → RState → RState × Bool
  | .addRow vs, s => tableRow vs s
  | .writeText t as, s => formatOp t as s

/-- Execute renderer calls in order; a raised coercion exception stops
the run (it propagates out of the plugin render call) but keeps the
state mutated so far. -/
def runOps : List RenderOp → RState → RState × Bool
  | [], s => (s, false)
  | op :: rest, s =>
    let (s', e) := stepOp op s
    if e then (s', true) else runOps rest s'

/-- Whether coercion of this value completes without raising. -/
def isOkValue (v : PyValue) : Bool :=
  match addValue v with
  | .ok _ => true
  | .error _ => false

/-- Whether every coercion in the list completes. -/
def valsOK (vs : List PyValue) : Bool := vs.all isOkValue

/-- Whether every coercion an op performs completes. -/
def opOK : RenderOp → Bool
  | .addRow vs => valsOK vs
  | .writeText _ as => valsOK as

/-- Whether every coercion in an op sequence completes. -/
def opsOK (ops : List RenderOp) : Bool := ops.all opOK

/-- The wire value a successful coercion yields. -/
def coerceOK (v : PyValue) : WireValue :=
  match addValue v with
  | .ok w => w
  | .error _ => {}

/-- The section mode an op writes in. -/
def opMode : RenderOp → Modes
  | .addRow _ => .TABLE
  | .writeText _ _ => .STRING

/-- Append the payload of one op to a section. -/
def appendOpTo (sec : Section) : RenderOp → Section
  | .addRow vs =>
      { sec with table := { sec.table with rows := sec.table.rows ++ [vs.map coerceOK] } }
  | .writeText t as =>
      { sec with formattedValueList := sec.formattedValueList ++ [⟨t, as.map coerceOK⟩] }

/-- The section holding exactly one op. -/
def sectionOfOp (op : RenderOp) : Section := appendOpTo emptySection op

/-- Specification-side section layout (from the spec: one section per
maximal contiguous run of same-mode writes, in order): continue the
current section `cur` of mode `m` with the remaining ops. -/
def specCont (m : Modes) (cur : Section) : List RenderOp → List Section
  | [] => [cur]
  | op :: rest =>
    if opMode op = m then specCont m (appendOpTo cur op) rest
    else cur :: specCont (opMode op) (sectionOfOp op) rest

/-- Specification-side section layout of a whole op sequence. -/
def sectionsSpec : List RenderOp → List Section
  | [] => []
  | op :: rest => specCont (opMode op) (sectionOfOp op) rest

/-- What one requested plugin does when resolved and rendered
(source lines 230-239): it issues `ops` against the renderer and then
either returns (`raises = none`) or raises an exception whose
`str(e)` is the carried string (`raises = some msg`; resolution
failure of an unknown plugin name is the case `ops = []`).  Python
does not require an exception to stringify to a non-empty message, so
`msg` may be `""`. -/
structure PluginBehavior where
  ops : List RenderOp
  raises : Option String
deriving DecidableEq

/-- One `VolatilityResponse` as sent by `SendReply`. -/
structure VolDocument where
  plugin : Option String := none
  error : Option String := none
  sections : List Section := []
deriving DecidableEq

/-- `str` of the `UnboundLocalError` that `AddValue` raises when both
textual renderings of a base object raise (see `baseObjectBranch`). -/
def unboundLocalMsg : String :=
  "local variable string_value referenced before assignment"

/-- One iteration of the plugin loop of `VolatilityAction.Run`
(source lines 222-246): fresh renderer, `start(plugin)` (which only
labels the response when the name is truthy), resolve and render
inside `try`, stringify any exception into `error`, and set
`response.error` only when that string is non-empty. -/
def runPlugin (name : String) (b : PluginBehavior) : VolDocument :=
  let plug := if name = "" then none else some name
  let (st, renderErr) := runOps b.ops freshRState
  let error := if renderErr then unboundLocalMsg else b.raises.getD ""
  { plugin := plug,
    error := if error = "" then none else some error,
    sections := st.sections }

/-- Observable events of the plugin loop, in program order: the
heartbeat `vol_session.progress(message=...)`, the plugin resolution
and invocation, and the `SendReply`. -/
inductive RunEvent where
  | heartbeat (msg : String)
  | invoke (name : String)
  | reply (doc : VolDocument)
deriving DecidableEq

/-- The event trace of the plugin loop (source lines 222-246): for
every requested plugin, in request order, a heartbeat carrying
`"Running plugin " + name`, then the invocation, then the reply. -/
def runTrace : List (String × PluginBehavior) → List RunEvent
  | [] => []
  | (n, b) :: rest =>
      .heartbeat ("Running plugin " ++ n) ::
      .invoke n ::
      .reply (runPlugin n b) ::
      runTrace rest

/-- Project a reply event. -/
def replyOf : RunEvent → Option VolDocument
  | .reply d => some d
  | _ => none

/-- The documents the loop sends back, in order. -/
def runReplies (ps : List (String × PluginBehavior)) : List VolDocument :=
  (runTrace ps).filterMap replyOf

/-- A dynamic value stored in a session attribute (`vol_session`
attributes are set with `setattr`, so their values are arbitrary;
these constructors cover the values the embedded code stores and the
request scalars). -/
inductive SessVal where
  | noneV
  | str (s : String)
  | int (i : Int)
  | boolV (b : Bool)
  | progressFn
  | handle (cr3 : Option Int)
deriving DecidableEq

/-- Python truthiness of a session value. -/
def pyFalsy : SessVal → Bool
  | .noneV => true
  | .str s => s = ""
  | .int i => i = 0
  | .boolV b => !b
  | .progressFn => false
  | .handle _ => false

/-- A volatility `session.Session`, modelled as its attribute
dictionary (every field the embedded code touches is set with plain
attribute assignment) plus an identity token distinguishing distinct
constructions. -/
structure Session where
  id : Nat
  attrs : List (String × SessVal) := []
deriving DecidableEq

/-- Python `getattr`: the value of the attribute, `none` when absent
(a `session.Session` attribute never assigned reads as Python `None`
for the fields the code consults; `getAttrOrNone` models that). -/
def getAttr (s : Session) (k : String) : Option SessVal :=
  (s.attrs.find? (fun p => p.1 = k)).map (·.2)

/-- Attribute read defaulting to Python `None`. -/
def getAttrOrNone (s : Session) (k : String) : SessVal :=
  (getAttr s k).getD .noneV

/-- Python `setattr`: replace or add the binding. -/
def setAttr (s : Session) (k : String) (v : SessVal) : Session :=
  { s with attrs := (k, v) :: s.attrs.filter (fun p => p.1 ≠ k) }

/-- Modelled from the spec: `utils.FastStore` (`grr.lib.utils` is not
part of this repository snapshot).  A capacity-bounded keyed store of
sessions with least-recently-used eviction; entries are kept in
recency order, most recent first. -/
structure Store where
  entries : List (String × Session) := []
  maxSize : Nat := 10
deriving DecidableEq

/-- Modelled from the spec: `FastStore.Get` — the stored session for
the key (refreshing its recency), or `none` for the `KeyError` miss. -/
def storeGet (st : Store) (k : String) : Option (Session × Store) :=
  match st.entries.find? (fun p => p.1 = k) with
  | none => none
  | some (_, s) =>
      some (s, { st with entries := (k, s) :: st.entries.filter (fun p => p.1 ≠ k) })

/-- Modelled from the spec: `FastStore.Put` — insert the entry as most
recent and evict the least recently used entries beyond capacity. -/
def storePut (st : Store) (k : String) (v : Session) : Store :=
  { st with entries := ((k, v) :: st.entries.filter (fun p => p.1 ≠ k)).take st.maxSize }

/-- The session currently cached for a key, ignoring recency. -/
def storeLookup (st : Store) (k : String) : Option Session :=
  (st.entries.find? (fun p => p.1 = k)).map (·.2)

/-- In-place mutation of the cached session object: the cache entry
for the key aliases the session the caller mutated, so its stored
value is the mutated one (recency position unchanged). -/
def storeWriteBack (st : Store) (k : String) (v : Session) : Store :=
  { st with entries := st.entries.map (fun p => if p.1 = k then (k, v) else p) }

/-- Outcome of `GuessProfile` (source lines 176-180) together with the
`try ... except AttributeError` around its call site (lines 206-210):
`returns p` — the call completed returning `p` (`none` both when the
platform is not Windows, where `GuessProfile` falls off the end, and
when the guess itself yields `None`); `attrError` — it raised
`AttributeError` (the one exception type the call site catches, e.g.
the `guess_profile` plugin being absent); `otherError msg` — it
raised any other exception, which the call site does not catch. -/
inductive DetectOutcome where
  | returns (p : Option String)
  | attrError
  | otherError (msg : String)
deriving DecidableEq

/-- Decidable equality of outcomes, needed so that witnesses can be
checked by evaluation. -/
instance {ε α : Type} [DecidableEq ε] [DecidableEq α] : DecidableEq (Except ε α) := fun a b =>
  match a, b with
  | .error e, .error f =>
      if h : e = f then .isTrue (by rw [h]) else .isFalse (by intro c; cases c; exact h rfl)
  | .ok x, .ok y =>
      if h : x = y then .isTrue (by rw [h]) else .isFalse (by intro c; cases c; exact h rfl)
  | .error _, .ok _ => .isFalse (by intro c; cases c)
  | .ok _, .error _ => .isFalse (by intro c; cases c)

/-- The external collaborators session construction consults:
`vfs.VFSOpen` (succeeding with a handle that may expose a `cr3`
attribute, or raising) and the profile detection outcome. -/
structure BuildEnv where
  vfsOpen : Except String (Option Int)
  detect : DetectOutcome
deriving DecidableEq

/-- Session construction, the `except KeyError` branch of
`VolatilityAction.Run` (source lines 188-214): open the target, install
the heartbeat, copy `fhandle.cr3` into `dtb` when the handle exposes
it (`AttributeError` swallowed), assign the guessed profile
(`AttributeError` swallowed, any other exception propagates), then
default a falsy profile to `"Win7SP1x64"`. -/
def buildSession (env : BuildEnv) (nid : Nat) : Except String Session :=
  match env.vfsOpen with
  | .error e => .error e
  | .ok fh =>
    let s : Session := { id := nid }
    let s := setAttr s "fhandle" (.handle fh)
    let s := setAttr s "progress" .progressFn
    let s := match fh with
      | some c => setAttr s "dtb" (.int c)
      | none => s
    match env.detect with
    | .otherError msg => .error msg
    | .attrError =>
        if pyFalsy (getAttrOrNone s "profile")
        then .ok (setAttr s "profile" (.str "Win7SP1x64"))
        else .ok s
    | .returns p =>
        let s := setAttr s "profile" (match p with | some q => .str q | none => .noneV)
        if pyFalsy (getAttrOrNone s "profile")
        then .ok (setAttr s "profile" (.str "Win7SP1x64"))
        else .ok s

/-- The process-wide state the action reads and writes: the global
`SESSION_CACHE` plus the identity counter handing out fresh session
identities. -/
structure GlobalState where
  store : Store := {}
  nextId : Nat := 0
deriving DecidableEq

/-- Session recovery (source lines 185-216): `SESSION_CACHE.Get`, and
on `KeyError` construct and `Put`.  A construction failure propagates
to the caller and leaves the global state untouched. -/
def getOrCreate (env : BuildEnv) (key : String) (g : GlobalState) :
    Except String Session × GlobalState :=
  match storeGet g.store key with
  | some (s, st) => (.ok s, { g with store := st })
  | none =>
    match buildSession env g.nextId with
    | .error e => (.error e, g)
    | .ok s => (.ok s, { store := storePut g.store key s, nextId := g.nextId + 1 })

/-- A decoded `VolatilityRequest`: the device path (the cache key),
the freeform `args` attribute mapping, and the requested plugins
(paired with what each does when invoked). -/
structure RunArgs where
  devicePath : String
  attrs : List (String × SessVal) := []
  plugins : List (String × PluginBehavior) := []
deriving DecidableEq

/-- The `setattr` loop over the request attributes
(source lines 218-220). -/
def applyAttrs (s : Session) (attrs : List (String × SessVal)) : Session :=
  attrs.foldl (fun a kv => setAttr a kv.1 kv.2) s

/-- `VolatilityAction.Run` (source lines 182-246): recover or build
the session, apply the request attributes onto it (mutating the cached
object in place, hence the write-back), run the plugin loop. -/
def volRun (env : BuildEnv) (args : RunArgs) (g : GlobalState) :
    Except String (List VolDocument) × GlobalState :=
  match getOrCreate env args.devicePath g with
  | (.error e, g') => (.error e, g')
  | (.ok s, g') =>
    let s := applyAttrs s args.attrs
    (.ok (runReplies args.plugins),
     { g' with store := storeWriteBack g'.store args.devicePath s })

/-- Fold a sequence of later invocations over the global state. -/
def runsFold (runs : List (BuildEnv × RunArgs)) (g : GlobalState) : GlobalState :=
  runs.foldl (fun acc r => (volRun r.1 r.2 acc).2) g

/-! ### Helper lemmas -/

theorem modifyIdx_append (f : Section → Section) (l : List Section) (a : Section) :
    modifyIdx f l.length (l ++ [a]) = l ++ [f a] := by
  induction l with
  | nil => rfl
  | cons b bs ih => simp [modifyIdx, ih]

theorem modifyIdx_append_two (f : Section → Section) (l : List Section) (a b : Section) :
    modifyIdx f (l.length + 1) (l ++ [a, b]) = l ++ [a, f b] := by
  induction l with
  | nil => rfl
  | cons c cs ih => simp [modifyIdx, ih]

theorem addValuesPartial_ok (vs : List PyValue) (h : valsOK vs = true) :
    addValuesPartial vs = (vs.map coerceOK, false) := by
  induction vs with
  | nil => rfl
  | cons v vs ih =>
    rw [valsOK, List.all_cons, Bool.and_eq_true] at h
    obtain ⟨h1, h2⟩ := h
    unfold addValuesPartial
    cases hv : addValue v with
    | error e => rw [isOkValue, hv] at h1; cases h1
    | ok w =>
      rw [ih h2]
      simp [coerceOK, hv]

theorem stepOp_same (op : RenderOp) (done : List Section) (cur : Section) (m : Modes)
    (hok : opOK op = true) (hm : opMode op = m) :
    stepOp op ⟨done ++ [cur], some done.length, some m⟩ =
      (⟨done ++ [appendOpTo cur op], some done.length, some m⟩, false) := by
  subst hm
  cases op with
  | addRow vs =>
    rw [opOK] at hok
    simp [stepOp, tableRow, initSection, opMode, withActive,
      addValuesPartial_ok vs hok, modifyIdx_append, appendOpTo]
  | writeText t as =>
    rw [opOK] at hok
    simp [stepOp, formatOp, initSection, opMode, withActive,
      addValuesPartial_ok as hok, modifyIdx_append, appendOpTo]

theorem stepOp_diff (op : RenderOp) (done : List Section) (cur : Section) (m : Modes)
    (hok : opOK op = true) (hm : opMode op ≠ m) :
    stepOp op ⟨done ++ [cur], some done.length, some m⟩ =
      (⟨(done ++ [cur]) ++ [sectionOfOp op], some (done ++ [cur]).length,
        some (opMode op)⟩, false) := by
  cases op with
  | addRow vs =>
    rw [opOK] at hok
    rw [opMode] at hm ⊢
    have hmm : (some m ≠ some Modes.TABLE) = True := by
      simp; exact fun h => hm h.symm
    simp [stepOp, tableRow, initSection, hmm, withActive,
      addValuesPartial_ok vs hok, sectionOfOp, appendOpTo, emptySection]
    exact modifyIdx_append_two _ done cur _
  | writeText t as =>
    rw [opOK] at hok
    rw [opMode] at hm ⊢
    have hmm : (some m ≠ some Modes.STRING) = True := by
      simp; exact fun h => hm h.symm
    simp [stepOp, formatOp, initSection, hmm, withActive,
      addValuesPartial_ok as hok, sectionOfOp, appendOpTo, emptySection]
    exact modifyIdx_append_two _ done cur _

theorem stepOp_fresh (op : RenderOp) (hok : opOK op = true) :
    stepOp op freshRState = (⟨[sectionOfOp op], some 0, some (opMode op)⟩, false) := by
  cases op with
  | addRow vs =>
    rw [opOK] at hok
    simp [stepOp, tableRow, initSection, freshRState, withActive,
      addValuesPartial_ok vs hok, modifyIdx, sectionOfOp, appendOpTo, emptySection, opMode]
  | writeText t as =>
    rw [opOK] at hok
    simp [stepOp, formatOp, initSection, freshRState, withActive,
      addValuesPartial_ok as hok, modifyIdx, sectionOfOp, appendOpTo, emptySection, opMode]

theorem runOps_cont (ops : List RenderOp) :
    ∀ (done : List Section) (cur : Section) (m : Modes), opsOK ops = true →
      ∃ done' cur' m',
        runOps ops ⟨done ++ [cur], some done.length, some m⟩ =
          (⟨done' ++ [cur'], some done'.length, some m'⟩, false) ∧
        done' ++ [cur'] = done ++ specCont m cur ops := by
  induction ops with
  | nil =>
    intro done cur m _
    exact ⟨done, cur, m, rfl, by rw [specCont]⟩
  | cons op rest ih =>
    intro done cur m hok
    rw [opsOK, List.all_cons, Bool.and_eq_true] at hok
    obtain ⟨h1, h2⟩ := hok
    by_cases hm : opMode op = m
    · rw [runOps, stepOp_same op done cur m h1 hm]
      obtain ⟨done', cur', m', heq, hsec⟩ := ih done (appendOpTo cur op) m h2
      exact ⟨done', cur', m', by simpa using heq, by rw [hsec, specCont, if_pos hm]⟩
    · rw [runOps, stepOp_diff op done cur m h1 hm]
      obtain ⟨done', cur', m', heq, hsec⟩ := ih (done ++ [cur]) (sectionOfOp op) (opMode op) h2
      refine ⟨done', cur', m', by simpa using heq, ?_⟩
      rw [hsec, specCont, if_neg hm]
      simp

theorem runOps_fresh_spec (ops : List RenderOp) (hok : opsOK ops = true) :
    (runOps ops freshRState).1.sections = sectionsSpec ops ∧
    (runOps ops freshRState).2 = false := by
  cases ops with
  | nil => exact ⟨rfl, rfl⟩
  | cons op rest =>
    rw [opsOK, List.all_cons, Bool.and_eq_true] at hok
    obtain ⟨h1, h2⟩ := hok
    rw [runOps, stepOp_fresh op h1]
    obtain ⟨done', cur', m', heq, hsec⟩ :=
      runOps_cont rest [] (sectionOfOp op) (opMode op) h2
    have : runOps rest ⟨[sectionOfOp op], some 0, some (opMode op)⟩ =
        (⟨done' ++ [cur'], some done'.length, some m'⟩, false) := heq
    rw [sectionsSpec]
    simp only [this]
    simpa using hsec

theorem specCont_text (cur : Section) (ts : List (String × List PyValue)) :
    specCont .STRING cur (ts.map fun p => RenderOp.writeText p.1 p.2) =
      [{ cur with formattedValueList :=
          cur.formattedValueList ++ ts.map fun p => ⟨p.1, p.2.map coerceOK⟩ }] := by
  induction ts generalizing cur with
  | nil => simp [specCont]
  | cons t ts ih =>
    rw [List.map_cons, specCont, if_pos (by rw [opMode])]
    rw [ih]
    simp [appendOpTo]

/-! ### C2, C3, C4: value coercion -/

/-- C2: coercion of a source value is claimed to be total (never
fails or throws), in particular on structured analysis objects whose
integer conversion and textual rendering raise.  The code contradicts
this: when both `__unicode__` and `__str__` raise one of the caught
exception types, the local `string_value` is never assigned and the
subsequent `if string_value:` raises `UnboundLocalError`, so coercion
throws.  The second conjunct shows the fallback clause of the claim
holds for unrecognized values. -/
theorem C2_coercion_totality_bug :
    addValue (.baseObject ⟨"_EPROCESS", "proc", 4096, "kernel", none, none, none⟩) =
      .error () ∧
    (∀ r : String, addValue (.pyOther r) = .ok { svalue := some r }) :=
  ⟨rfl, fun _ => rfl⟩

/-- C3 counterexample: a structured object whose textual rendering is
the empty string.  The empty string has no integer interpretation
(`pyIntOfString "" = none`), so the claim demands `stringValue` be
present; the code skips the whole `svalue` logic because the empty
string is falsy, so `svalue` is absent. -/
theorem C3_counterexample :
    addValue (.baseObject ⟨"T", "n", 16, "vm", some 5, some "", none⟩) =
      .ok { type := some "T", name := some "n", offset := some 16,
            vm := some "vm", value := some 5 } ∧
    pyIntOfString "" = none :=
  ⟨by decide, by decide⟩

/-- C3 amended: for a structured object whose textual rendering `s`
exists, `svalue` is absent exactly when `s` is empty or reinterprets
to the same integer as the stored integer field read with proto
default 0; it is present (carrying `s`) exactly when `s` is non-empty
and reinterprets to a different integer or to none at all. -/
theorem C3_svalue_rule (d : BaseObjData) (s : String)
    (hs : d.unicodeConv.orElse (fun _ => d.strConv) = some s) :
    ∃ w, addValue (.baseObject d) = .ok w ∧
      w.value = d.intConv ∧
      (w.svalue = none ↔ (s = "" ∨ pyIntOfString s = some (protoIntRead d.intConv))) ∧
      (w.svalue = some s ↔ (s ≠ "" ∧ pyIntOfString s ≠ some (protoIntRead d.intConv))) := by
  obtain ⟨ty, nm, off, vmm, ic, uc, sc⟩ := d
  simp only [addValue, baseObjectBranch, hs]
  by_cases hse : s = ""
  · subst hse
    rw [if_pos rfl]
    exact ⟨_, rfl, rfl, by simp, by simp⟩
  · rw [if_neg hse]
    cases hpi : pyIntOfString s with
    | none =>
      exact ⟨_, rfl, rfl, by simp [hse, hpi], by simp [hse, hpi]⟩
    | some n =>
      dsimp only
      by_cases hn : n = protoIntRead ic
      · rw [if_neg (by simpa using hn)]
        exact ⟨_, rfl, rfl, by simp [hse, hpi, hn], by simp [hse, hpi, hn]⟩
      · rw [if_pos (by simpa using hn)]
        exact ⟨_, rfl, rfl, by simp [hse, hpi, hn], by simp [hse, hpi, hn]⟩

/-- C3 witness: a concrete structured object (integer value 5,
textual rendering "6") instantiating `C3_svalue_rule`. -/
theorem C3_svalue_rule_witness :
    ∃ w, addValue (.baseObject ⟨"T", "n", 16, "vm", some 5, some "6", none⟩) = .ok w ∧
      w.value = some 5 ∧
      (w.svalue = none ↔ ("6" = "" ∨ pyIntOfString "6" = some (protoIntRead (some 5)))) ∧
      (w.svalue = some "6" ↔ ("6" ≠ "" ∧ pyIntOfString "6" ≠ some (protoIntRead (some 5)))) :=
  C3_svalue_rule ⟨"T", "n", 16, "vm", some 5, some "6", none⟩ "6" rfl

/-- C4: booleans always coerce to their textual form (`str(value)`),
which is non-empty, and the integer value field is never populated;
the source tests `bool` before `(int, long)` precisely because Python
booleans are also integers. -/
theorem C4_boolean_coercion (b : Bool) :
    ∃ w, addValue (.pyBool b) = .ok w ∧
      w.svalue = some (pyBoolStr b) ∧ pyBoolStr b ≠ "" ∧ w.value = none := by
  refine ⟨{ svalue := some (pyBoolStr b) }, rfl, rfl, ?_, rfl⟩
  cases b <;> decide

/-- C4 witness at a concrete boolean. -/
theorem C4_boolean_coercion_witness :
    ∃ w, addValue (.pyBool true) = .ok w ∧
      w.svalue = some (pyBoolStr true) ∧ pyBoolStr true ≠ "" ∧ w.value = none :=
  C4_boolean_coercion true

/-! ### C5: the section state machine -/

theorem opsOK_map_writeText (ts : List (String × List PyValue))
    (hall : (ts.all fun p => valsOK p.2) = true) :
    opsOK (ts.map fun p => RenderOp.writeText p.1 p.2) = true := by
  induction ts with
  | nil => rfl
  | cons t ts ih =>
    rw [List.all_cons, Bool.and_eq_true] at hall
    rw [List.map_cons, opsOK, List.all_cons, Bool.and_eq_true]
    exact ⟨hall.1, ih hall.2⟩

/-- C5: from a fresh renderer, a non-empty sequence of `format`
(`writeText`) calls with no intervening `table_row` yields exactly one
STRING section holding all entries in call order (first conjunct); and
any interleaving of `table_row` (`addRow`) and `format` (`writeText`)
calls whose coercions complete yields exactly the sections described
by `sectionsSpec`: one section per maximal contiguous run of same-mode
calls, in order, without raising (second conjunct). -/
theorem C5_section_state_machine :
    (∀ ts : List (String × List PyValue), ts ≠ [] →
       (ts.all fun p => valsOK p.2) = true →
       (runOps (ts.map fun p => RenderOp.writeText p.1 p.2) freshRState).1.sections =
         [{ formattedValueList := ts.map fun p => ⟨p.1, p.2.map coerceOK⟩ }]) ∧
    (∀ ops : List RenderOp, opsOK ops = true →
       (runOps ops freshRState).1.sections = sectionsSpec ops ∧
       (runOps ops freshRState).2 = false) := by
  have general : ∀ ops : List RenderOp, opsOK ops = true →
      (runOps ops freshRState).1.sections = sectionsSpec ops ∧
      (runOps ops freshRState).2 = false := runOps_fresh_spec
  refine ⟨?_, general⟩
  intro ts hne hall
  have hok : opsOK (ts.map fun p => RenderOp.writeText p.1 p.2) = true :=
    opsOK_map_writeText ts hall
  rw [(general _ hok).1]
  cases ts with
  | nil => exact absurd rfl hne
  | cons t ts =>
    rw [List.map_cons, sectionsSpec]
    rw [show opMode (RenderOp.writeText t.1 t.2) = Modes.STRING from rfl]
    rw [specCont_text]
    simp [sectionOfOp, appendOpTo, emptySection]

/-- C5 witness: three text writes at concrete values produce one
STRING section with the three entries in order. -/
theorem C5_section_state_machine_witness :
    (runOps ([("a", [PyValue.pyInt 1]), ("b", []), ("c", [PyValue.pyBool true])].map
        fun p => RenderOp.writeText p.1 p.2) freshRState).1.sections =
      [{ formattedValueList :=
          [("a", [PyValue.pyInt 1]), ("b", []), ("c", [PyValue.pyBool true])].map
            fun p => ⟨p.1, p.2.map coerceOK⟩ }] :=
  C5_section_state_machine.1 _ (by decide) (by decide)

/-! ### C1: one document per plugin, failure isolation -/

theorem runReplies_eq_map (ps : List (String × PluginBehavior)) :
    runReplies ps = ps.map fun p => runPlugin p.1 p.2 := by
  induction ps with
  | nil => rfl
  | cons p ps ih =>
    obtain ⟨n, b⟩ := p
    simp [runReplies, runTrace, List.filterMap_cons, replyOf] at ih ⊢
    exact ih

theorem runPlugin_success (n : String) (b : PluginBehavior)
    (hok : opsOK b.ops = true) (hr : b.raises = none) :
    (runPlugin n b).error = none := by
  have h2 := (runOps_fresh_spec b.ops hok).2
  unfold runPlugin
  rcases hrun : runOps b.ops freshRState with ⟨st, e⟩
  rw [hrun] at h2
  simp at h2
  subst h2
  simp [hr]

theorem runPlugin_failure (n : String) (b : PluginBehavior) (msg : String)
    (hok : opsOK b.ops = true) (hr : b.raises = some msg) (hmsg : msg ≠ "") :
    (runPlugin n b).error = some msg := by
  have h2 := (runOps_fresh_spec b.ops hok).2
  unfold runPlugin
  rcases hrun : runOps b.ops freshRState with ⟨st, e⟩
  rw [hrun] at h2
  simp at h2
  subst h2
  simp [hr, hmsg]

/-- C1 counterexample: plugin "A" raises an exception whose `str` is
empty (Python allows `raise Exception()`), plugin "B" succeeds.  The
loop still sends two documents in order, but `if error:` skips the
assignment for "A", so document 0 carries no error at all — the claim
demands a non-empty error string there. -/
theorem C1_counterexample :
    (runReplies [("A", ⟨[], some ""⟩), ("B", ⟨[], none⟩)]).map VolDocument.error =
      [none, none] := by
  decide

/-- C1 amended: the loop sends exactly one document per requested
plugin in request order (each exactly `runPlugin` of its entry); a
plugin that completes without raising yields an absent error; a plugin
that raises yields `error = str(e)` provided that string is non-empty
(when the exception stringifies to the empty string the error field is
left unset). -/
theorem C1_one_document_per_plugin (ps : List (String × PluginBehavior)) :
    (runReplies ps).length = ps.length ∧
    (∀ i (h : i < ps.length),
       (runReplies ps).get? i =
         some (runPlugin (ps.get ⟨i, h⟩).1 (ps.get ⟨i, h⟩).2)) ∧
    (∀ n b, opsOK (PluginBehavior.ops b) = true → b.raises = none →
       (runPlugin n b).error = none) ∧
    (∀ n b msg, opsOK (PluginBehavior.ops b) = true → b.raises = some msg → msg ≠ "" →
       (runPlugin n b).error = some msg) := by
  refine ⟨by rw [runReplies_eq_map, List.length_map], ?_,
    runPlugin_success, runPlugin_failure⟩
  intro i h
  rw [runReplies_eq_map, List.get?_map, List.get?_eq_get h]
  rfl

/-- C1 witness: plugin "A" raising an exception with non-empty message
and plugin "B" succeeding yield two documents, the first with the
message, the second without error. -/
theorem C1_one_document_per_plugin_witness :
    (runReplies [("A", ⟨[], some "boom"⟩), ("B", ⟨[], none⟩)]).length = 2 ∧
    (runReplies [("A", ⟨[], some "boom"⟩), ("B", ⟨[], none⟩)]).get? 0 =
      some (runPlugin "A" ⟨[], some "boom"⟩) ∧
    (runPlugin "A" ⟨[], some "boom"⟩).error = some "boom" ∧
    (runPlugin "B" ⟨[], none⟩).error = none :=
  ⟨(C1_one_document_per_plugin [("A", ⟨[], some "boom"⟩), ("B", ⟨[], none⟩)]).1,
   (C1_one_document_per_plugin [("A", ⟨[], some "boom"⟩), ("B", ⟨[], none⟩)]).2.1
     0 (by decide),
   (C1_one_document_per_plugin [("A", ⟨[], some "boom"⟩), ("B", ⟨[], none⟩)]).2.2.2
     "A" ⟨[], some "boom"⟩ "boom" (by decide) rfl (by decide),
   (C1_one_document_per_plugin [("A", ⟨[], some "boom"⟩), ("B", ⟨[], none⟩)]).2.2.1
     "B" ⟨[], none⟩ (by decide) rfl⟩

/-! ### C9: heartbeat before every invocation -/

/-- C9: for every requested plugin, the trace of the loop carries the
heartbeat `"Running plugin " + name` at position `3 * i`, strictly
before the invocation at position `3 * i + 1`; and the heartbeat
messages are exactly one per requested plugin, in request order, with
no condition on whether earlier plugins failed. -/
theorem C9_heartbeat_before_invoke (ps : List (String × PluginBehavior)) :
    ((runTrace ps).filterMap
        (fun e => match e with | .heartbeat m => some m | _ => none) =
      ps.map fun p => "Running plugin " ++ p.1) ∧
    (∀ i (h : i < ps.length),
       (runTrace ps).get? (3 * i) =
         some (.heartbeat ("Running plugin " ++ (ps.get ⟨i, h⟩).1)) ∧
       (runTrace ps).get? (3 * i + 1) = some (.invoke (ps.get ⟨i, h⟩).1)) := by
  constructor
  · induction ps with
    | nil => rfl
    | cons p ps ih =>
      obtain ⟨n, b⟩ := p
      simpa [runTrace, List.filterMap_cons] using ih
  · intro i
    induction ps generalizing i with
    | nil => intro h; cases h
    | cons p ps ih =>
      intro h
      obtain ⟨n, b⟩ := p
      match i with
      | 0 => exact ⟨rfl, rfl⟩
      | i + 1 =>
        have h' : i < ps.length := by simpa using h
        have e3 : 3 * (i + 1) = 3 * i + 1 + 1 + 1 := by ring
        obtain ⟨h1, h2⟩ := ih i h'
        constructor
        · rw [e3, runTrace]
          simpa using h1
        · rw [e3, runTrace]
          simpa using h2

/-- C9 witness: with "A" failing and "B" succeeding, the heartbeat for
"B" sits at trace position 3, before the invocation at position 4. -/
theorem C9_heartbeat_before_invoke_witness :
    (runTrace [("A", ⟨[], some ""⟩), ("B", ⟨[], none⟩)]).get? 3 =
      some (.heartbeat ("Running plugin " ++ "B")) ∧
    (runTrace [("A", ⟨[], some ""⟩), ("B", ⟨[], none⟩)]).get? 4 =
      some (.invoke "B") :=
  (C9_heartbeat_before_invoke [("A", ⟨[], some ""⟩), ("B", ⟨[], none⟩)]).2
    1 (by decide)

/-! ### Session attribute and store lemmas -/

theorem filter_idem {α : Type} (p : α → Bool) (l : List α) :
    (l.filter p).filter p = l.filter p := by
  induction l with
  | nil => rfl
  | cons a l ih =>
    by_cases h : p a = true
    · rw [List.filter_cons_of_pos h, List.filter_cons_of_pos h, ih]
    · rw [List.filter_cons_of_neg h, ih]

theorem find?_filter_of_imp {α : Type} (l : List α) (p q : α → Bool)
    (h : ∀ x, p x = true → q x = true) :
    (l.filter q).find? p = l.find? p := by
  induction l with
  | nil => rfl
  | cons a l ih =>
    by_cases hq : q a = true
    · rw [List.filter_cons_of_pos hq]
      by_cases hp : p a = true
      · rw [List.find?_cons_of_pos _ hp, List.find?_cons_of_pos _ hp]
      · rw [List.find?_cons_of_neg _ hp, List.find?_cons_of_neg _ hp, ih]
    · have hp : ¬p a = true := fun hpa => hq (h a hpa)
      rw [List.filter_cons_of_neg hq, List.find?_cons_of_neg _ hp, ih]

theorem getAttr_setAttr_same (s : Session) (k : String) (v : SessVal) :
    getAttr (setAttr s k v) k = some v := by
  rw [getAttr, setAttr]
  rw [List.find?_cons_of_pos _ (by simp)]
  rfl

theorem getAttr_setAttr_other (s : Session) (k n : String) (v : SessVal)
    (h : n ≠ k) :
    getAttr (setAttr s k v) n = getAttr s n := by
  rw [getAttr, setAttr, getAttr]
  dsimp only
  rw [List.find?_cons_of_neg _ (by simpa using fun hh : k = n => h hh.symm)]
  rw [find?_filter_of_imp _ _ _ (fun x hx => by
    simp only [decide_eq_true_eq] at hx ⊢
    rw [hx]
    exact h)]

theorem applyAttrs_cons (s : Session) (kv : String × SessVal)
    (rest : List (String × SessVal)) :
    applyAttrs s (kv :: rest) = applyAttrs (setAttr s kv.1 kv.2) rest := rfl

theorem getAttr_applyAttrs_notmem (n : String) :
    ∀ (attrs : List (String × SessVal)) (s : Session),
      n ∉ attrs.map Prod.fst →
      getAttr (applyAttrs s attrs) n = getAttr s n := by
  intro attrs
  induction attrs with
  | nil => intro s _; rfl
  | cons kv rest ih =>
    intro s h
    rw [List.map_cons, List.mem_cons, not_or] at h
    rw [applyAttrs_cons, ih _ h.2, getAttr_setAttr_other _ _ _ _ h.1]

theorem getAttr_applyAttrs_mem (k : String) (v : SessVal) :
    ∀ (attrs : List (String × SessVal)) (s : Session),
      (attrs.map Prod.fst).Nodup → (k, v) ∈ attrs →
      getAttr (applyAttrs s attrs) k = some v := by
  intro attrs
  induction attrs with
  | nil => intro s _ hm; cases hm
  | cons kv rest ih =>
    intro s hnd hm
    obtain ⟨a, b⟩ := kv
    rw [List.map_cons, List.nodup_cons] at hnd
    rw [applyAttrs_cons]
    rcases List.mem_cons.mp hm with heq | hmem
    · injection heq with h1 h2
      subst h1
      subst h2
      rw [getAttr_applyAttrs_notmem k rest _ hnd.1]
      exact getAttr_setAttr_same s k v
    · exact ih _ hnd.2 hmem

theorem storeGet_some_lookup (st st' : Store) (k : String) (s : Session)
    (h : storeGet st k = some (s, st')) :
    storeLookup st k = some s := by
  rw [storeGet] at h
  rw [storeLookup]
  cases hf : st.entries.find? (fun p => p.1 = k) with
  | none => rw [hf] at h; cases h
  | some pr =>
    obtain ⟨a, b⟩ := pr
    rw [hf] at h
    injection h with h
    injection h with h1 h2
    rw [h1]
    rfl

theorem storeGet_idem (st st' : Store) (k : String) (s : Session)
    (h : storeGet st k = some (s, st')) :
    storeGet st' k = some (s, st') := by
  rw [storeGet] at h
  cases hf : st.entries.find? (fun p => p.1 = k) with
  | none => rw [hf] at h; cases h
  | some pr =>
    obtain ⟨a, b⟩ := pr
    rw [hf] at h
    injection h with h
    injection h with h1 h2
    subst h1
    subst h2
    rw [storeGet]
    dsimp only
    rw [List.find?_cons_of_pos _ (by simp)]
    rw [List.filter_cons_of_neg (by simp)]
    rw [filter_idem]

theorem storeGet_put (st : Store) (k : String) (v : Session)
    (h : 1 ≤ st.maxSize) :
    ∃ st', storeGet (storePut st k v) k = some (v, st') := by
  obtain ⟨m, hm⟩ : ∃ m, st.maxSize = m + 1 := ⟨st.maxSize - 1, by omega⟩
  rw [storePut, storeGet]
  dsimp only
  rw [hm, List.take_succ_cons]
  rw [List.find?_cons_of_pos _ (by simp)]
  exact ⟨_, rfl⟩

theorem storeGet_of_lookup (st : Store) (k : String) (s : Session)
    (h : storeLookup st k = some s) :
    storeGet st k =
      some (s, { st with entries := (k, s) :: st.entries.filter fun p => p.1 ≠ k }) := by
  rw [storeLookup] at h
  rw [storeGet]
  cases hf : st.entries.find? (fun p => p.1 = k) with
  | none => rw [hf] at h; cases h
  | some pr =>
    obtain ⟨a, b⟩ := pr
    rw [hf] at h
    injection h with h
    subst h
    rfl

theorem find?_writeBack (l : List (String × Session)) (k : String) (v : Session)
    (h : (l.find? (fun p => p.1 = k)).isSome) :
    (l.map fun p => if p.1 = k then (k, v) else p).find? (fun p => p.1 = k) =
      some (k, v) := by
  induction l with
  | nil => simp [List.find?] at h
  | cons a l ih =>
    by_cases ha : a.1 = k
    · rw [List.map_cons, if_pos ha, List.find?_cons_of_pos _ (by simp)]
    · rw [List.map_cons, if_neg ha]
      rw [List.find?_cons_of_neg _ (by simpa using ha)]
      apply ih
      rw [List.find?_cons_of_neg _ (by simpa using ha)] at h
      exact h

theorem storeLookup_writeBack (st : Store) (k : String) (v : Session)
    (h : (storeLookup st k).isSome) :
    storeLookup (storeWriteBack st k v) k = some v := by
  have h' : (st.entries.find? (fun p => p.1 = k)).isSome := by
    rw [storeLookup] at h
    cases hf : st.entries.find? (fun p => p.1 = k) with
    | none => rw [hf] at h; simp at h
    | some pr => rfl
  rw [storeLookup, storeWriteBack]
  dsimp only
  rw [find?_writeBack st.entries k v h']
  rfl

theorem getOrCreate_lookup (env : BuildEnv) (key : String)
    (g g1 : GlobalState) (s0 : Session)
    (hcap : 1 ≤ g.store.maxSize)
    (hget : getOrCreate env key g = (.ok s0, g1)) :
    storeLookup g1.store key = some s0 := by
  rw [getOrCreate] at hget
  cases hsg : storeGet g.store key with
  | some pr =>
    obtain ⟨s, st⟩ := pr
    rw [hsg] at hget
    injection hget with ha hb
    injection ha with ha
    subst ha
    subst hb
    exact storeGet_some_lookup st st key s (storeGet_idem g.store st key s hsg)
  | none =>
    rw [hsg] at hget
    cases hb : buildSession env g.nextId with
    | error e => rw [hb] at hget; simp at hget
    | ok s =>
      rw [hb] at hget
      injection hget with ha hbb
      injection ha with ha
      subst ha
      subst hbb
      obtain ⟨st', hst'⟩ := storeGet_put g.store key s hcap
      exact storeGet_some_lookup _ st' key s hst'

/-! ### C6, C7: the session cache -/

/-- C6: a second `getOrCreate` for the same key returns the very same
session object (same identity, same contents) that the first call
returned — it is served from the cache, and no new construction
happens (the identity counter is untouched).  `1 ≤ maxSize` rules out
the degenerate store that evicts an entry the moment it is put (the
claim assumes no intervening eviction). -/
theorem C6_get_or_create_identity (env1 env2 : BuildEnv) (key : String)
    (g g1 : GlobalState) (s1 : Session)
    (hcap : 1 ≤ g.store.maxSize)
    (h1 : getOrCreate env1 key g = (.ok s1, g1)) :
    ∃ g2, getOrCreate env2 key g1 = (.ok s1, g2) ∧ g2.nextId = g1.nextId := by
  rw [getOrCreate] at h1
  cases hsg : storeGet g.store key with
  | some pr =>
    obtain ⟨s, st⟩ := pr
    rw [hsg] at h1
    injection h1 with ha hb
    injection ha with ha
    subst ha
    subst hb
    have hidem := storeGet_idem g.store st key s hsg
    refine ⟨{ store := st, nextId := g.nextId }, ?_, rfl⟩
    rw [getOrCreate]
    dsimp only
    rw [hidem]
  | none =>
    rw [hsg] at h1
    cases hb : buildSession env1 g.nextId with
    | error e => rw [hb] at h1; simp at h1
    | ok s =>
      rw [hb] at h1
      injection h1 with ha hbb
      injection ha with ha
      subst ha
      subst hbb
      obtain ⟨st', hst'⟩ := storeGet_put g.store key s hcap
      refine ⟨{ store := st', nextId := g.nextId + 1 }, ?_, rfl⟩
      rw [getOrCreate]
      dsimp only
      rw [hst']

/-- C6 witness: two consecutive calls for key "dev" on a fresh store,
the second returning the identical session. -/
theorem C6_get_or_create_identity_witness :
    ∃ g2, getOrCreate ⟨.ok none, .returns none⟩ "dev"
        ⟨⟨[("dev", ⟨0, [("profile", .str "Win7SP1x64"), ("progress", .progressFn),
                        ("fhandle", .handle none)]⟩)], 10⟩, 1⟩ =
      (.ok ⟨0, [("profile", .str "Win7SP1x64"), ("progress", .progressFn),
                ("fhandle", .handle none)]⟩, g2) ∧
      g2.nextId = 1 :=
  C6_get_or_create_identity ⟨.ok none, .returns none⟩ ⟨.ok none, .returns none⟩
    "dev" ⟨⟨[], 10⟩, 0⟩
    ⟨⟨[("dev", ⟨0, [("profile", .str "Win7SP1x64"), ("progress", .progressFn),
                    ("fhandle", .handle none)]⟩)], 10⟩, 1⟩
    ⟨0, [("profile", .str "Win7SP1x64"), ("progress", .progressFn),
         ("fhandle", .handle none)]⟩
    (by decide) (by decide)

/-- C7: when the key is absent and construction fails, the failure is
surfaced to the caller and the global state — in particular the cache
— is returned unchanged (no entry is created); a later call with a
working environment retries construction and succeeds. -/
theorem C7_construction_failure (env env2 : BuildEnv) (key : String)
    (g : GlobalState) (e : String)
    (hmiss : storeGet g.store key = none)
    (hfail : buildSession env g.nextId = .error e) :
    getOrCreate env key g = (.error e, g) ∧
    (∀ s, buildSession env2 g.nextId = .ok s →
       getOrCreate env2 key g =
         (.ok s, { store := storePut g.store key s, nextId := g.nextId + 1 })) := by
  constructor
  · rw [getOrCreate, hmiss, hfail]
  · intro s hs
    rw [getOrCreate, hmiss, hs]

/-- C7 witness: opening the device fails ("open failed"), the cache
stays empty, and a retry with a working opener builds and caches a
session. -/
theorem C7_construction_failure_witness :
    getOrCreate ⟨.error "open failed", .returns none⟩ "dev" ⟨⟨[], 10⟩, 0⟩ =
      (.error "open failed", ⟨⟨[], 10⟩, 0⟩) ∧
    getOrCreate ⟨.ok none, .returns none⟩ "dev" ⟨⟨[], 10⟩, 0⟩ =
      (.ok ⟨0, [("profile", .str "Win7SP1x64"), ("progress", .progressFn),
                ("fhandle", .handle none)]⟩,
       ⟨storePut ⟨[], 10⟩ "dev"
          ⟨0, [("profile", .str "Win7SP1x64"), ("progress", .progressFn),
               ("fhandle", .handle none)]⟩, 1⟩) :=
  ⟨(C7_construction_failure ⟨.error "open failed", .returns none⟩
      ⟨.ok none, .returns none⟩ "dev" ⟨⟨[], 10⟩, 0⟩ "open failed"
      (by decide) (by decide)).1,
   (C7_construction_failure ⟨.error "open failed", .returns none⟩
      ⟨.ok none, .returns none⟩ "dev" ⟨⟨[], 10⟩, 0⟩ "open failed"
      (by decide) (by decide)).2
     ⟨0, [("profile", .str "Win7SP1x64"), ("progress", .progressFn),
          ("fhandle", .handle none)]⟩ (by decide)⟩

/-! ### C8: profile detection fallback -/

/-- C8 counterexample: the call site catches only `AttributeError`
around `GuessProfile`; a detection failure of any other exception type
propagates, so context construction does NOT succeed and the failure
IS surfaced — contradicting the claim that any detection failure
silently falls back to the default profile. -/
theorem C8_counterexample :
    buildSession ⟨.ok none, .otherError "profile detection exploded"⟩ 0 =
      .error "profile detection exploded" := rfl

/-- C8 amended: when detection is unavailable (the non-Windows branch
returning `None`), yields a falsy profile (`None` or the empty
string), or raises `AttributeError` (the one exception type the call
site anticipates, e.g. the guessing plugin being absent), construction
succeeds and the profile is silently defaulted to "Win7SP1x64"; a
detection failure raising any other exception type propagates and
construction fails. -/
theorem C8_profile_fallback (fh : Option Int) (nid : Nat) (d : DetectOutcome)
    (hd : d = .attrError ∨ d = .returns none ∨ d = .returns (some "")) :
    (∃ s, buildSession ⟨.ok fh, d⟩ nid = .ok s ∧
       getAttr s "profile" = some (.str "Win7SP1x64")) ∧
    (∀ msg, buildSession ⟨.ok fh, .otherError msg⟩ nid = .error msg) := by
  constructor
  · rcases hd with rfl | rfl | rfl <;> cases fh <;>
      exact ⟨_, rfl, getAttr_setAttr_same _ _ _⟩
  · intro msg
    cases fh <;> rfl

/-- C8 witness: on a non-Windows-guessable environment raising
`AttributeError`, construction succeeds with the default profile, and
the same environment with a differently-typed detection failure
surfaces the error. -/
theorem C8_profile_fallback_witness :
    (∃ s, buildSession ⟨.ok none, .attrError⟩ 0 = .ok s ∧
       getAttr s "profile" = some (.str "Win7SP1x64")) ∧
    buildSession ⟨.ok none, .otherError "boom"⟩ 0 = .error "boom" :=
  ⟨(C8_profile_fallback none 0 .attrError (Or.inl rfl)).1,
   (C8_profile_fallback none 0 .attrError (Or.inl rfl)).2 "boom"⟩

/-! ### C10: request attributes overwrite session state -/

theorem volRun_samekey_persist (env : BuildEnv) (r : RunArgs) (g : GlobalState)
    (s : Session)
    (hlook : storeLookup g.store r.devicePath = some s) :
    storeLookup (volRun env r g).2.store r.devicePath =
      some (applyAttrs s r.attrs) := by
  have hg := storeGet_of_lookup g.store r.devicePath s hlook
  have heq : getOrCreate env r.devicePath g =
      (.ok s, { g with store :=
        { g.store with entries :=
            (r.devicePath, s) :: g.store.entries.filter fun p => p.1 ≠ r.devicePath } }) := by
    rw [getOrCreate, hg]
  rw [volRun, heq]
  dsimp only
  apply storeLookup_writeBack
  rw [storeLookup]
  dsimp only
  rw [List.find?_cons_of_pos _ (by simp)]
  rfl

theorem runsFold_cons (x : BuildEnv × RunArgs) (rest : List (BuildEnv × RunArgs))
    (g : GlobalState) :
    runsFold (x :: rest) g = runsFold rest (volRun x.1 x.2 g).2 := rfl

theorem runsFold_samekey (key : String) :
    ∀ (runs : List (BuildEnv × RunArgs)) (g : GlobalState) (s : Session),
      (∀ x ∈ runs, x.2.devicePath = key) →
      storeLookup g.store key = some s →
      ∃ s', storeLookup (runsFold runs g).store key = some s' ∧
        ∀ n, (∀ x ∈ runs, n ∉ x.2.attrs.map Prod.fst) →
          getAttr s' n = getAttr s n := by
  intro runs
  induction runs with
  | nil => intro g s _ hl; exact ⟨s, hl, fun n _ => rfl⟩
  | cons x rest ih =>
    intro g s hk hl
    have hkey : x.2.devicePath = key := hk x (List.mem_cons_self x rest)
    have hstep := volRun_samekey_persist x.1 x.2 g s (by rw [hkey]; exact hl)
    rw [hkey] at hstep
    have hrest : ∀ y ∈ rest, y.2.devicePath = key :=
      fun y hy => hk y (List.mem_cons_of_mem _ hy)
    obtain ⟨s', hl', hfr⟩ := ih (volRun x.1 x.2 g).2 (applyAttrs s x.2.attrs) hrest hstep
    refine ⟨s', by rw [runsFold_cons]; exact hl', ?_⟩
    intro n hn
    rw [hfr n (fun y hy => hn y (List.mem_cons_of_mem _ hy))]
    exact getAttr_applyAttrs_notmem n x.2.attrs s (hn x (List.mem_cons_self x rest))

/-- C10: applying the request attribute mapping mutates exactly the
named attributes of the shared cached session and no others: every
mapped name (including collisions with internal fields such as
`progress`, `profile`, `fhandle`, `dtb`) ends up bound to the request
value, every unmapped name keeps its prior value; the run completes
with one reply per plugin; the cache entry for the key now holds the
mutated session; and the mutation persists across any sequence of
subsequent runs against the same target key whose requests do not
rebind the name. -/
theorem C10_attribute_overwrite (env : BuildEnv) (args : RunArgs)
    (g g1 : GlobalState) (s0 : Session)
    (hcap : 1 ≤ g.store.maxSize)
    (hget : getOrCreate env args.devicePath g = (.ok s0, g1)) :
    (volRun env args g).1 = .ok (runReplies args.plugins) ∧
    storeLookup (volRun env args g).2.store args.devicePath =
      some (applyAttrs s0 args.attrs) ∧
    (∀ k v, (args.attrs.map Prod.fst).Nodup → (k, v) ∈ args.attrs →
       getAttr (applyAttrs s0 args.attrs) k = some v) ∧
    (∀ n, n ∉ args.attrs.map Prod.fst →
       getAttr (applyAttrs s0 args.attrs) n = getAttr s0 n) ∧
    (∀ runs : List (BuildEnv × RunArgs),
       (∀ x ∈ runs, x.2.devicePath = args.devicePath) →
       ∃ s', storeLookup (runsFold runs (volRun env args g).2).store
           args.devicePath = some s' ∧
         ∀ n, (∀ x ∈ runs, n ∉ x.2.attrs.map Prod.fst) →
           getAttr s' n = getAttr (applyAttrs s0 args.attrs) n) := by
  have hv : volRun env args g =
      (.ok (runReplies args.plugins),
       { g1 with store :=
          storeWriteBack g1.store args.devicePath (applyAttrs s0 args.attrs) }) := by
    rw [volRun, hget]
  have hlook1 : storeLookup g1.store args.devicePath = some s0 :=
    getOrCreate_lookup env args.devicePath g g1 s0 hcap hget
  have hlook2 : storeLookup (volRun env args g).2.store args.devicePath =
      some (applyAttrs s0 args.attrs) := by
    rw [hv]
    dsimp only
    exact storeLookup_writeBack g1.store _ _ (by rw [hlook1]; rfl)
  refine ⟨by rw [hv], hlook2, ?_, ?_, ?_⟩
  · intro k v hnd hm
    exact getAttr_applyAttrs_mem k v args.attrs s0 hnd hm
  · intro n hn
    exact getAttr_applyAttrs_notmem n args.attrs s0 hn
  · intro runs hk
    exact runsFold_samekey args.devicePath runs (volRun env args g).2
      (applyAttrs s0 args.attrs) hk hlook2

/-- C10 witness: a request attribute named "profile" overwrites the
internal profile of the cached session, and the cache entry after the
run holds exactly that mutated session. -/
theorem C10_attribute_overwrite_witness :
    getAttr (applyAttrs
        ⟨0, [("profile", .str "Win7SP1x64"), ("progress", .progressFn),
             ("fhandle", .handle none)]⟩
        [("profile", SessVal.str "Evil")]) "profile" =
      some (.str "Evil") ∧
    storeLookup (volRun ⟨.ok none, .returns none⟩
        ⟨"dev", [("profile", SessVal.str "Evil")], []⟩ ⟨⟨[], 10⟩, 0⟩).2.store "dev" =
      some (applyAttrs
        ⟨0, [("profile", .str "Win7SP1x64"), ("progress", .progressFn),
             ("fhandle", .handle none)]⟩
        [("profile", SessVal.str "Evil")]) :=
  ⟨(C10_attribute_overwrite ⟨.ok none, .returns none⟩
      ⟨"dev", [("profile", SessVal.str "Evil")], []⟩ ⟨⟨[], 10⟩, 0⟩
      ⟨⟨[("dev", ⟨0, [("profile", .str "Win7SP1x64"), ("progress", .progressFn),
                      ("fhandle", .handle none)]⟩)], 10⟩, 1⟩
      ⟨0, [("profile", .str "Win7SP1x64"), ("progress", .progressFn),
           ("fhandle", .handle none)]⟩
      (by decide) (by decide)).2.2.1 "profile" (.str "Evil") (by decide) (by decide),
   (C10_attribute_overwrite ⟨.ok none, .returns none⟩
      ⟨"dev", [("profile", SessVal.str "Evil")], []⟩ ⟨⟨[], 10⟩, 0⟩
      ⟨⟨[("dev", ⟨0, [("profile", .str "Win7SP1x64"), ("progress", .progressFn),
                      ("fhandle", .handle none)]⟩)], 10⟩, 1⟩
      ⟨0, [("profile", .str "Win7SP1x64"), ("progress", .progressFn),
           ("fhandle", .handle none)]⟩
      (by decide) (by decide)).2.1⟩

end GrrVolatility
